import Mathlib

/-!
Verification development for the Flowstate core: a shallow embedding of the
rate limiter, request queue, inference-client fallback logic, pattern
detector, focus-score calculator and intervention orchestrator, together with
theorems settling the specification claims about them.

Modelling conventions:
* JavaScript numbers are modelled as exact rationals (`ℚ`); timestamps are
  milliseconds as integers (`ℤ`).
* `Math.round` is round-half-up (`⌊x + 1/2⌋`), as in JS.
* `Math.sqrt` is modelled by `ratSqrt`, which is exact precisely when the
  numerator and denominator of its argument are perfect squares; theorems that
  depend on the square root carry that exactness as a hypothesis.
* String `includes` is substring containment over the character list.
* `Date.now()` (ambient wall-clock reads) becomes an explicit `now : ℤ`
  parameter threaded to each operation.
-/

/-- Character-list version of `startsWith`. -/
def charsStart : List Char → List Char → Bool
  | _, [] => true
  | [], _ :: _ => false
  | a :: as, b :: bs => a = b && charsStart as bs

/-- Character-list substring containment. -/
def charsSub : List Char → List Char → Bool
  | [], pat => charsStart [] pat
  | a :: as, pat => charsStart (a :: as) pat || charsSub as pat

/-- Embeds JavaScript `String.prototype.includes`. -/
def strContains (s pat : String) : Bool :=
  charsSub s.data pat.data

/-- Embeds JavaScript `Math.round`: round half toward positive infinity,
returned as a rational (JS numbers stay doubles after rounding). -/
def roundJs (x : ℚ) : ℚ :=
  ((⌊x + 1/2⌋ : ℤ) : ℚ)

theorem le_roundJs (x : ℚ) (a : ℤ) (h : (a : ℚ) ≤ x) : (a : ℚ) ≤ roundJs x := by
  unfold roundJs
  have h2 : a ≤ ⌊x + 1/2⌋ := by
    rw [Int.le_floor]
    have : ((a : ℚ)) ≤ x + 1/2 := by linarith
    exact_mod_cast this
  exact_mod_cast h2

theorem roundJs_le (x : ℚ) (b : ℤ) (h : x ≤ (b : ℚ)) : roundJs x ≤ (b : ℚ) := by
  unfold roundJs
  have h2 : ⌊x + 1/2⌋ < b + 1 := by
    rw [Int.floor_lt]
    push_cast
    linarith
  have hb : ⌊x + 1/2⌋ ≤ b := by omega
  exact_mod_cast hb

/-- Linear-search integer square root (kernel-reducible), used to model
`Math.sqrt` on rationals via `ratSqrt`. -/
def natSqrtLinear (n : ℕ) : ℕ :=
  (List.range (n + 1)).foldl (fun acc k => if k * k ≤ n then k else acc) 0

/-- Models JS `Math.sqrt` on a rational.  Exact exactly when numerator and
denominator are perfect squares; every theorem that inspects the square root
assumes that exactness explicitly. -/
def ratSqrt (x : ℚ) : ℚ :=
  ((natSqrtLinear x.num.toNat : ℚ)) / ((natSqrtLinear x.den : ℚ))

/-- JS `Array.prototype.slice(-n)`: the last `n` elements. -/
def lastN {α : Type} (n : ℕ) (l : List α) : List α :=
  l.drop (l.length - n)

/-! ## Rate limiter (src/backend/src/ai/rateLimiter.ts, `GroqRateLimiter`) -/

structure RateLimitConfig where
  tokensPerMinute : ℚ
  requestsPerMinute : ℕ
  burstSize : ℕ
deriving DecidableEq, Repr

/-- Defaults from the `GroqRateLimiter` constructor. -/
def defaultRateLimitConfig : RateLimitConfig :=
  { tokensPerMinute := 5000, requestsPerMinute := 25, burstSize := 5 }

/-- The mutable fields of `GroqRateLimiter` touched by `acquire`:
token bucket, rolling request-timestamp window, last refill instant. -/
structure RLState where
  tokens : ℚ
  requests : List ℤ
  lastRefill : ℤ
deriving DecidableEq, Repr

/-- `refillTokens(now)`: linear refill proportional to elapsed time, capped at
capacity; only applied when the computed amount is positive. -/
def refillTokens (cfg : RateLimitConfig) (now : ℤ) (s : RLState) : RLState :=
  if 0 < ((now - s.lastRefill : ℤ) : ℚ) / 60000 * cfg.tokensPerMinute then
    { tokens := min cfg.tokensPerMinute
        (s.tokens + ((now - s.lastRefill : ℤ) : ℚ) / 60000 * cfg.tokensPerMinute)
      requests := s.requests
      lastRefill := now }
  else s

/-- `cleanOldRequests(now)`: drop timestamps at least one minute old. -/
def cleanOldRequests (now : ℤ) (s : RLState) : RLState :=
  { s with requests := s.requests.filter (fun t => decide (now - 60000 < t)) }

/-- The request-window check in `acquire`: denied when the window already
holds `requestsPerMinute` timestamps and the oldest has positive residual
wait.  The `none` arm mirrors JS `undefined + 60000 - now` being `NaN`, whose
comparison with `0` is false. -/
def windowBlocked (cfg : RateLimitConfig) (now : ℤ) (s : RLState) : Bool :=
  if cfg.requestsPerMinute ≤ s.requests.length then
    match s.requests.head? with
    | some oldest => decide (0 < oldest + 60000 - now)
    | none => false
  else false

/-- `acquire(estimatedTokens)` at instant `now`: refill, prune the window,
deny when the request window is full or tokens are insufficient, otherwise
consume tokens and record the request. -/
def acquire (cfg : RateLimitConfig) (now : ℤ) (estimatedTokens : ℚ)
    (s : RLState) : Bool × RLState :=
  acquireChecked cfg now estimatedTokens (cleanOldRequests now (refillTokens cfg now s))
where
  /-- The body of `acquire` after the refill and prune steps. -/
  acquireChecked (cfg : RateLimitConfig) (now : ℤ) (estimatedTokens : ℚ)
      (s2 : RLState) : Bool × RLState :=
    if windowBlocked cfg now s2 then (false, s2)
    else if s2.tokens < estimatedTokens then (false, s2)
    else (true, { tokens := s2.tokens - estimatedTokens
                  requests := s2.requests ++ [now]
                  lastRefill := s2.lastRefill })

/-- A freshly constructed limiter: full bucket, empty window. -/
def freshRL (cfg : RateLimitConfig) (t : ℤ) : RLState :=
  { tokens := cfg.tokensPerMinute, requests := [], lastRefill := t }

/-- `n` consecutive `acquire` calls at the same instant; the boolean is the
conjunction of all the individual results. -/
def acquireN (cfg : RateLimitConfig) (now : ℤ) (k : ℚ) :
    ℕ → RLState → Bool × RLState
  | 0, s => (true, s)
  | n + 1, s =>
    let r := acquire cfg now k s
    let r2 := acquireN cfg now k n r.2
    (r.1 && r2.1, r2.2)

/-- A limiter state whose last refill and every recorded request happened at
instant `now` (so no time has elapsed). -/
def freshAt (now : ℤ) (s : RLState) : Prop :=
  s.lastRefill = now ∧ ∀ t ∈ s.requests, t = now

theorem refillTokens_noElapsed {cfg : RateLimitConfig} {now : ℤ} {s : RLState}
    (h : s.lastRefill = now) : refillTokens cfg now s = s := by
  unfold refillTokens
  simp [h]

theorem cleanOldRequests_noOld {now : ℤ} {s : RLState}
    (h : ∀ t ∈ s.requests, t = now) : cleanOldRequests now s = s := by
  unfold cleanOldRequests
  have hf : s.requests.filter (fun t => decide (now - 60000 < t)) = s.requests := by
    apply List.filter_eq_self.mpr
    intro t ht
    have := h t ht
    subst this
    simp only [decide_eq_true_eq]
    omega
  simp [hf]

theorem acquire_freshAt_eq {cfg : RateLimitConfig} {now : ℤ} {k : ℚ}
    {s : RLState} (hf : freshAt now s) :
    acquire cfg now k s = acquire.acquireChecked cfg now k s := by
  unfold acquire
  rw [refillTokens_noElapsed hf.1, cleanOldRequests_noOld hf.2]

theorem acquire_freshAt_succ {cfg : RateLimitConfig} {now : ℤ} {k : ℚ}
    {s : RLState} (hf : freshAt now s) (hs : (acquire cfg now k s).1 = true) :
    (acquire cfg now k s).2.tokens = s.tokens - k ∧
      freshAt now (acquire cfg now k s).2 := by
  rw [acquire_freshAt_eq hf] at hs ⊢
  unfold acquire.acquireChecked at hs ⊢
  by_cases hb : windowBlocked cfg now s = true
  · rw [if_pos hb] at hs
    simp at hs
  · rw [if_neg hb] at hs ⊢
    by_cases ht : s.tokens < k
    · rw [if_pos ht] at hs
      simp at hs
    · rw [if_neg ht]
      refine ⟨rfl, hf.1, ?_⟩
      intro t htmem
      simp at htmem
      rcases htmem with htmem | htmem
      · exact hf.2 t htmem
      · exact htmem

theorem acquire_freshAt_fail {cfg : RateLimitConfig} {now : ℤ} {k : ℚ}
    {s : RLState} (hf : freshAt now s) (hs : (acquire cfg now k s).1 = false) :
    (acquire cfg now k s).2 = s := by
  rw [acquire_freshAt_eq hf] at hs ⊢
  unfold acquire.acquireChecked at hs ⊢
  by_cases hb : windowBlocked cfg now s = true
  · rw [if_pos hb]
  · rw [if_neg hb] at hs ⊢
    by_cases ht : s.tokens < k
    · rw [if_pos ht]
    · rw [if_neg ht] at hs
      simp at hs

theorem acquireN_conservation {cfg : RateLimitConfig} {now : ℤ} {k : ℚ}
    (n : ℕ) (s : RLState) (hf : freshAt now s)
    (hs : (acquireN cfg now k n s).1 = true) :
    (acquireN cfg now k n s).2.tokens = s.tokens - n * k ∧
      freshAt now (acquireN cfg now k n s).2 := by
  induction n generalizing s with
  | zero =>
    simp [acquireN]
    exact hf
  | succ m ih =>
    unfold acquireN at hs ⊢
    simp only [Bool.and_eq_true] at hs
    obtain ⟨hstep, hrest⟩ := hs
    obtain ⟨htok, hfresh⟩ := acquire_freshAt_succ hf hstep
    obtain ⟨htok2, hfresh2⟩ := ih (acquire cfg now k s).2 hfresh hrest
    refine ⟨?_, hfresh2⟩
    rw [htok2, htok]
    push_cast
    ring

theorem acquire_tokens_nonneg {cfg : RateLimitConfig} {now : ℤ} {k : ℚ}
    {s : RLState} (hcap : 0 ≤ cfg.tokensPerMinute)
    (h : 0 ≤ s.tokens) : 0 ≤ (acquire cfg now k s).2.tokens := by
  have h1 : 0 ≤ (refillTokens cfg now s).tokens := by
    unfold refillTokens
    by_cases hadd : 0 < ((now - s.lastRefill : ℤ) : ℚ) / 60000 * cfg.tokensPerMinute
    · simp only [hadd, if_true]
      exact le_min hcap (by linarith)
    · simp only [hadd, if_false]
      exact h
  have h2 : 0 ≤ (cleanOldRequests now (refillTokens cfg now s)).tokens := h1
  unfold acquire acquire.acquireChecked
  set s2 := cleanOldRequests now (refillTokens cfg now s) with hs2
  by_cases hb : windowBlocked cfg now s2 = true
  · rw [if_pos hb]
    exact h2
  · rw [if_neg hb]
    by_cases ht : s2.tokens < k
    · rw [if_pos ht]
      exact h2
    · rw [if_neg ht]
      push_neg at ht
      simp only []
      linarith

/-- C2: from a fresh limiter, `N` acquire calls at one instant that all return
`true` leave `tokensPerMinute − N·k` tokens; with nonnegative capacity and
request size the token count never becomes negative; and a denied `acquire`
with no elapsed time returns the state unchanged (window full or tokens
insufficient alike). -/
theorem acquire_token_conservation (cfg : RateLimitConfig) (t : ℤ) (k : ℚ)
    (N : ℕ) (hk : 0 ≤ k) (hcap : 0 ≤ cfg.tokensPerMinute) :
    ((acquireN cfg t k N (freshRL cfg t)).1 = true →
      (acquireN cfg t k N (freshRL cfg t)).2.tokens
        = cfg.tokensPerMinute - N * k) ∧
    (∀ s : RLState, 0 ≤ s.tokens → 0 ≤ (acquire cfg t k s).2.tokens) ∧
    (∀ s : RLState, freshAt t s → (acquire cfg t k s).1 = false →
      (acquire cfg t k s).2 = s) := by
  refine ⟨?_, ?_, ?_⟩
  · intro hall
    have hfresh : freshAt t (freshRL cfg t) := by
      constructor
      · rfl
      · intro x hx
        simp [freshRL] at hx
    have := acquireN_conservation N (freshRL cfg t) hfresh hall
    simpa [freshRL] using this.1
  · intro s hs
    exact acquire_tokens_nonneg hcap hs
  · intro s hfr hfail
    exact acquire_freshAt_fail hfr hfail

/-- Concrete instantiation of `acquire_token_conservation`: capacity 5,
`k = 2`, two granted calls leave `5 − 2·2 = 1` token, any nonnegative state
stays nonnegative, and a denied call leaves the state untouched. -/
theorem acquire_token_conservation_witness :
    (acquireN ⟨5, 25, 5⟩ 0 2 2 (freshRL ⟨5, 25, 5⟩ 0)).2.tokens
        = (5 : ℚ) - 2 * 2 ∧
      0 ≤ (acquire ⟨5, 25, 5⟩ 0 2 ⟨1, [0, 0], 0⟩).2.tokens ∧
      (acquire ⟨5, 25, 5⟩ 0 2 ⟨1, [0, 0], 0⟩).2 = ⟨1, [0, 0], 0⟩ := by
  have h := acquire_token_conservation ⟨5, 25, 5⟩ 0 2 2 (by norm_num) (by norm_num)
  refine ⟨?_, ?_, ?_⟩
  · have hall : (acquireN ⟨5, 25, 5⟩ 0 2 2 (freshRL ⟨5, 25, 5⟩ 0)).1 = true := by
      norm_num [acquireN, acquire, acquire.acquireChecked, refillTokens,
        cleanOldRequests, windowBlocked, freshRL]
    simpa using h.1 hall
  · exact h.2.1 ⟨1, [0, 0], 0⟩ (by norm_num)
  · refine h.2.2 ⟨1, [0, 0], 0⟩ ⟨rfl, ?_⟩ ?_
    · intro x hx
      simp at hx
      simp [hx]
    · norm_num [acquire, acquire.acquireChecked, refillTokens,
        cleanOldRequests, windowBlocked]

/-! ## Request queue (src/backend/src/ai/requestQueue.ts, `RequestQueue`) -/

/-- The fields of a `QueuedRequest` the ordering logic depends on: a request
identifier standing for the execution closure / pending promise, and the
priority. -/
structure QReq where
  rid : ℕ
  priority : ℤ
deriving DecidableEq, Repr

/-- The `enqueue` insertion step: `findIndex((r) => r.priority < request.priority)`
followed by `splice` at that index, or `push` when no such index exists. -/
def insertByPriority : List QReq → QReq → List QReq
  | [], r => [r]
  | x :: xs, r =>
    if x.priority < r.priority then r :: x :: xs
    else x :: insertByPriority xs r

/-- Enqueue a batch of requests in order into a queue. -/
def enqueueAll (q : List QReq) (rs : List QReq) : List QReq :=
  rs.foldl insertByPriority q

/-- The `processQueue` drain loop specialised to an always-granting rate
limiter and always-succeeding closures: each iteration shifts the head and
executes it, so the execution order is the queue order. -/
def processAll : List QReq → List ℕ
  | [] => []
  | r :: rest => r.rid :: processAll rest

/-- Queue sorted by descending priority (the invariant `enqueue` maintains). -/
def sortedByPriority (q : List QReq) : Prop :=
  List.Pairwise (fun a b => b.priority ≤ a.priority) q

instance : DecidablePred sortedByPriority := fun q =>
  inferInstanceAs (Decidable (List.Pairwise _ q))

theorem mem_insertByPriority {q : List QReq} {r a : QReq} :
    a ∈ insertByPriority q r ↔ a ∈ q ∨ a = r := by
  induction q with
  | nil => simp [insertByPriority]
  | cons x xs ih =>
    unfold insertByPriority
    by_cases h : x.priority < r.priority
    · rw [if_pos h]
      simp
      tauto
    · rw [if_neg h]
      simp [ih]
      tauto

theorem insertByPriority_sorted {q : List QReq} {r : QReq}
    (hq : sortedByPriority q) : sortedByPriority (insertByPriority q r) := by
  induction q with
  | nil => simp [insertByPriority, sortedByPriority]
  | cons x xs ih =>
    unfold sortedByPriority at hq
    rw [List.pairwise_cons] at hq
    obtain ⟨hx, hxs⟩ := hq
    unfold insertByPriority
    by_cases h : x.priority < r.priority
    · rw [if_pos h]
      unfold sortedByPriority
      rw [List.pairwise_cons]
      constructor
      · intro b hb
        simp at hb
        rcases hb with hb | hb
        · rw [hb]
          exact le_of_lt h
        · exact le_trans (hx b hb) (le_of_lt h)
      · rw [List.pairwise_cons]
        exact ⟨hx, hxs⟩
    · rw [if_neg h]
      push_neg at h
      unfold sortedByPriority
      rw [List.pairwise_cons]
      constructor
      · intro b hb
        rw [mem_insertByPriority] at hb
        rcases hb with hb | hb
        · exact hx b hb
        · rw [hb]
          exact h
      · exact ih hxs

theorem insertByPriority_splice (q : List QReq) (r : QReq) :
    insertByPriority q r =
      q.takeWhile (fun x => !decide (x.priority < r.priority)) ++
        r :: q.dropWhile (fun x => !decide (x.priority < r.priority)) := by
  induction q with
  | nil => simp [insertByPriority]
  | cons x xs ih =>
    unfold insertByPriority
    by_cases h : x.priority < r.priority
    · rw [if_pos h]
      simp [List.takeWhile, List.dropWhile, h]
    · rw [if_neg h]
      simp [List.takeWhile, List.dropWhile, h]
      exact ih

/-- C5: enqueuing priorities `[1, 3, 2]` into an empty queue orders them
`[3, 2, 1]` and (with an always-granting limiter) they execute in that order;
in general the insertion step preserves descending-priority sortedness and
splices the new request exactly at the first strictly-lower-priority
position, so equal priorities keep FIFO order. -/
theorem queue_priority_order (q : List QReq) (r : QReq)
    (hq : sortedByPriority q) :
    sortedByPriority (insertByPriority q r) ∧
    insertByPriority q r =
      q.takeWhile (fun x => !decide (x.priority < r.priority)) ++
        r :: q.dropWhile (fun x => !decide (x.priority < r.priority)) ∧
    (enqueueAll [] [⟨0, 1⟩, ⟨1, 3⟩, ⟨2, 2⟩]).map QReq.priority = [3, 2, 1] ∧
    processAll (enqueueAll [] [⟨0, 1⟩, ⟨1, 3⟩, ⟨2, 2⟩]) = [1, 2, 0] := by
  refine ⟨insertByPriority_sorted hq, insertByPriority_splice q r, ?_, ?_⟩ <;> rfl

/-- Concrete instantiation of `queue_priority_order` at a two-element sorted
queue and a tie-free middle insertion. -/
theorem queue_priority_order_witness :
    sortedByPriority (insertByPriority [⟨1, 3⟩, ⟨0, 1⟩] ⟨2, 2⟩) ∧
    insertByPriority [⟨1, 3⟩, ⟨0, 1⟩] ⟨2, 2⟩ =
      [QReq.mk 1 3, QReq.mk 0 1].takeWhile
          (fun x => !decide (x.priority < (2 : ℤ))) ++
        ⟨2, 2⟩ :: [QReq.mk 1 3, QReq.mk 0 1].dropWhile
          (fun x => !decide (x.priority < (2 : ℤ))) ∧
    (enqueueAll [] [⟨0, 1⟩, ⟨1, 3⟩, ⟨2, 2⟩]).map QReq.priority = [3, 2, 1] ∧
    processAll (enqueueAll [] [⟨0, 1⟩, ⟨1, 3⟩, ⟨2, 2⟩]) = [1, 2, 0] :=
  queue_priority_order [⟨1, 3⟩, ⟨0, 1⟩] ⟨2, 2⟩ (by decide)

/-- `enqueue`: reject outright when the queue already holds `maxQueueSize`
items (the closure is never stored, hence never executed), otherwise insert
by priority. -/
def enqueueOp (maxQueueSize : ℕ) (q : List QReq) (r : QReq) :
    List QReq × Except String Unit :=
  if maxQueueSize ≤ q.length then
    (q, Except.error "Request queue is full. Please try again later.")
  else (insertByPriority q r, Except.ok ())

/-- C6: enqueuing into a full queue rejects immediately with the queue-full
error, leaves the queue exactly as it was, and the new request is never
executed by the drain loop. -/
theorem enqueue_full_rejects (maxQueueSize : ℕ) (q : List QReq) (r : QReq)
    (h : maxQueueSize ≤ q.length) :
    enqueueOp maxQueueSize q r =
      (q, Except.error "Request queue is full. Please try again later.") ∧
    (enqueueOp maxQueueSize q r).1 = q ∧
    (r.rid ∉ q.map QReq.rid →
      r.rid ∉ processAll (enqueueOp maxQueueSize q r).1) := by
  have he : enqueueOp maxQueueSize q r =
      (q, Except.error "Request queue is full. Please try again later.") := by
    unfold enqueueOp
    rw [if_pos h]
  have hp : ∀ l : List QReq, processAll l = l.map QReq.rid := by
    intro l
    induction l with
    | nil => rfl
    | cons a as ih => simp [processAll, ih]
  refine ⟨he, by rw [he], ?_⟩
  intro hfresh
  rw [he]
  simpa [hp] using hfresh

/-- Concrete instantiation of `enqueue_full_rejects` at the default capacity
50 with a 50-element queue. -/
theorem enqueue_full_rejects_witness :
    enqueueOp 50 ((List.range 50).map fun i => ⟨i, 0⟩) ⟨50, 7⟩ =
      ((List.range 50).map fun i => ⟨i, 0⟩,
        Except.error "Request queue is full. Please try again later.") ∧
    (50 : ℕ) ∉ processAll (enqueueOp 50 ((List.range 50).map fun i => ⟨i, 0⟩)
      ⟨50, 7⟩).1 := by
  have h := enqueue_full_rejects 50 ((List.range 50).map fun i => ⟨i, 0⟩)
    ⟨50, 7⟩ (by simp)
  exact ⟨h.1, h.2.2 (by decide)⟩

/-- `clear()`: reject every queued request with a `Queue cleared` error and
empty the queue.  The first component collects the rejections delivered
(request id paired with the error message). -/
def clearOp (q : List QReq) : List (ℕ × String) × List QReq :=
  (q.map fun r => (r.rid, "Queue cleared"), [])

/-- `getQueueSize()`. -/
def getQueueSize (q : List QReq) : ℕ :=
  q.length

/-- C10: `clear()` rejects every queued request with the `Queue cleared`
error (one rejection per request, in order), leaves the queue empty with
`getQueueSize` 0, and the subsequent drain loop executes nothing. -/
theorem queue_clear_rejects_all (q : List QReq) :
    (clearOp q).1 = q.map (fun r => (r.rid, "Queue cleared")) ∧
    (clearOp q).1.length = q.length ∧
    (clearOp q).2 = [] ∧
    getQueueSize (clearOp q).2 = 0 ∧
    processAll (clearOp q).2 = [] :=
  ⟨rfl, by simp [clearOp], rfl, rfl, rfl⟩

/-- Classification of an execution failure as a throttling error:
`message.includes('429') || message.includes('rate_limit')`. -/
def isRateLimitMsg (msg : String) : Bool :=
  strContains msg "429" || strContains msg "rate_limit"

/-- The retry loop of `processQueue` restricted to one queued request whose
execution closure always fails with the fixed message `errMsg`.  Each
recursive step mirrors one executed attempt: on a throttling-classified
failure with retries remaining the retry counter is incremented, the
exponential-backoff delay `retryDelay * 2^(retries-1)` is recorded and the
request is re-queued (at the front, so it is simply attempted again);
otherwise the caller's promise is rejected with the error.  Returns the
total number of attempts, the inter-attempt delays in order, and the
terminal outcome. -/
def runAttempts (errMsg : String) (retryDelay maxRetries retries : ℕ) :
    ℕ × List ℕ × Except String Unit :=
  if h : isRateLimitMsg errMsg = true ∧ retries < maxRetries then
    let res := runAttempts errMsg retryDelay maxRetries (retries + 1)
    (res.1 + 1, retryDelay * 2 ^ (retries + 1 - 1) :: res.2.1, res.2.2)
  else (1, [], Except.error errMsg)
termination_by maxRetries - retries

theorem runAttempts_throttle (e : String) (d m : ℕ)
    (he : isRateLimitMsg e = true) :
    ∀ n r, m - r = n →
      runAttempts e d m r =
        (m - r + 1, ((List.range (m - r)).map fun i => d * 2 ^ (r + i),
          Except.error e)) := by
  intro n
  induction n with
  | zero =>
    intro r hr
    rw [runAttempts]
    have hnot : ¬(isRateLimitMsg e = true ∧ r < m) := by
      intro hc
      omega
    rw [dif_neg hnot, hr]
    simp
  | succ k ih =>
    intro r hr
    rw [runAttempts]
    have hlt : r < m := by omega
    rw [dif_pos ⟨he, hlt⟩]
    have hrec := ih (r + 1) (by omega)
    rw [hrec]
    have h1 : m - r = (m - (r + 1)) + 1 := by omega
    rw [h1]
    simp only [List.range_succ_eq_map, List.map_cons, List.map_map]
    simp only [Prod.mk.injEq]
    refine ⟨trivial, ?_, trivial⟩
    have hh : r + 1 - 1 = r + 0 := by omega
    rw [hh]
    congr 1
    apply List.map_congr_left
    intro i _
    simp only [Function.comp_apply, Nat.succ_eq_add_one]
    have hi : r + 1 + i = r + (i + 1) := by omega
    rw [hi]

theorem delays_strict_increasing (d m : ℕ) (hd : 0 < d) :
    List.Pairwise (· < ·) ((List.range m).map fun i => d * 2 ^ i) := by
  rw [List.pairwise_map]
  have := List.pairwise_lt_range m
  apply this.imp
  intro i j hij
  apply mul_lt_mul_of_pos_left _ hd
  exact Nat.pow_lt_pow_right (by norm_num) hij

/-- C3: a queued request whose closure always fails with a
throttling-classified message is attempted `maxRetries + 1` times in total,
with delays `retryDelay·2^0, retryDelay·2^1, …` between consecutive attempts
(strictly increasing when `retryDelay > 0`), and finally rejects the caller
with that error; a non-throttling failure rejects immediately after a single
attempt with no delay. -/
theorem retry_backoff_spec (e : String) (d m : ℕ)
    (he : isRateLimitMsg e = true) (hd : 0 < d) :
    runAttempts e d m 0 =
      (m + 1, ((List.range m).map fun i => d * 2 ^ i, Except.error e)) ∧
    List.Pairwise (· < ·) ((List.range m).map fun i => d * 2 ^ i) ∧
    (∀ e2, isRateLimitMsg e2 = false →
      ∀ r, runAttempts e2 d m r = (1, [], Except.error e2)) := by
  refine ⟨?_, delays_strict_increasing d m hd, ?_⟩
  · have := runAttempts_throttle e d m he (m - 0) 0 rfl
    simpa using this
  · intro e2 he2 r
    rw [runAttempts]
    rw [dif_neg]
    intro hc
    rw [he2] at hc
    exact absurd hc.1 (by simp)

/-- Concrete instantiation of `retry_backoff_spec`: a `429` message with the
default `retryDelay = 5000`, `maxRetries = 3` gives four attempts with delays
5000, 10000, 20000, and a non-throttling message gives a single attempt. -/
theorem retry_backoff_spec_witness :
    runAttempts "Rate limit exceeded: 429" 5000 3 0 =
      (3 + 1, ((List.range 3).map fun i => 5000 * 2 ^ i,
        Except.error "Rate limit exceeded: 429")) ∧
    runAttempts "boom" 5000 3 0 = (1, [], Except.error "boom") :=
  ⟨(retry_backoff_spec "Rate limit exceeded: 429" 5000 3 (by decide)
      (by norm_num)).1,
    (retry_backoff_spec "Rate limit exceeded: 429" 5000 3 (by decide)
      (by norm_num)).2.2 "boom" (by decide) 0⟩

/-! ## Inference client (src/backend/src/ai/GroqClient.ts, `GroqClient`) -/

/-- The shape of an error from the inference boundary as `generateDeep`
inspects it: the message, the optional `status` field and the optional
`response.status` field. -/
structure ApiError where
  message : String
  status : Option ℕ := none
  responseStatus : Option ℕ := none
deriving DecidableEq, Repr

/-- The rate-limit classification in `generateDeep`:
`message.includes('429') || message.includes('rate_limit') || status === 429`. -/
def isRateLimitErr (e : ApiError) : Bool :=
  strContains e.message "429" || strContains e.message "rate_limit" ||
    e.status == some 429

/-- The model-decommissioned classification in `generateDeep`:
`message.includes('decommissioned') || message.includes('model_decommissioned')
 || (response.status === 400 && message.includes('model'))`. -/
def isDecommissionedErr (e : ApiError) : Bool :=
  strContains e.message "decommissioned" ||
    strContains e.message "model_decommissioned" ||
    (e.responseStatus == some 400 && strContains e.message "model")

/-- The decision logic of the closure enqueued by `generateDeep`, with the
two external calls abstracted: `deepResult` is the outcome of the 70B call
and `fastCall` performs an 8B call at a given `max_tokens` budget.  Returns
the overall outcome together with the list of fallback token budgets
actually requested from the fast model (so "exactly one fallback call" is
visible in the result).  The retry-after sleep on the throttling path is a
pure delay and is not modelled. -/
def generateDeepBody (deepResult : Except ApiError String)
    (fastCall : ℕ → Except ApiError String) (maxTokens : ℕ) :
    Except String String × List ℕ :=
  match deepResult with
  | Except.ok s => (Except.ok s, [])
  | Except.error e =>
    if isRateLimitErr e then
      (Except.error ("Rate limit exceeded: " ++ e.message), [])
    else if isDecommissionedErr e then
      match fastCall (min (maxTokens * 2) 4096) with
      | Except.ok s => (Except.ok s, [min (maxTokens * 2) 4096])
      | Except.error fe =>
        (Except.error ("Groq API error: Both models failed. 70B error: " ++
            e.message ++ ", 8B fallback error: " ++ fe.message),
          [min (maxTokens * 2) 4096])
    else (Except.error ("Groq 70B API error: " ++ e.message), [])

/-- C4: when the deep call fails with a model-decommissioned error (and is
not classified as throttling, which is checked first), `generateDeep` makes
exactly one fallback call to the fast model at `min(2·maxTokens, 4096)`
tokens and returns its output without raising; if that fallback also fails,
it raises the single combined error naming both failures. -/
theorem generateDeep_decommissioned_fallback (e : ApiError) (maxTokens : ℕ)
    (hrl : isRateLimitErr e = false) (hdec : isDecommissionedErr e = true) :
    (∀ out : String,
      generateDeepBody (Except.error e) (fun _ => Except.ok out) maxTokens =
        (Except.ok out, [min (maxTokens * 2) 4096])) ∧
    (∀ fe : ApiError,
      generateDeepBody (Except.error e) (fun _ => Except.error fe) maxTokens =
        (Except.error ("Groq API error: Both models failed. 70B error: " ++
            e.message ++ ", 8B fallback error: " ++ fe.message),
          [min (maxTokens * 2) 4096])) := by
  constructor
  · intro out
    simp [generateDeepBody, hrl, hdec]
  · intro fe
    simp [generateDeepBody, hrl, hdec]

/-- Concrete instantiation of `generateDeep_decommissioned_fallback`: a
decommissioned-model message at `maxTokens = 1000` falls back at
`min(2000, 4096) = 2000` tokens. -/
theorem generateDeep_decommissioned_fallback_witness :
    generateDeepBody
        (Except.error ⟨"The model has been decommissioned", none, none⟩)
        (fun _ => Except.ok "fallback analysis") 1000 =
      (Except.ok "fallback analysis", [2000]) ∧
    generateDeepBody
        (Except.error ⟨"The model has been decommissioned", none, none⟩)
        (fun _ => Except.error ⟨"boom", none, none⟩) 1000 =
      (Except.error ("Groq API error: Both models failed. 70B error: " ++
          "The model has been decommissioned" ++
          ", 8B fallback error: " ++ "boom"), [2000]) := by
  have h := generateDeep_decommissioned_fallback
    ⟨"The model has been decommissioned", none, none⟩ 1000
    (by decide) (by decide)
  exact ⟨h.1 "fallback analysis", h.2 ⟨"boom", none, none⟩⟩

/-! ## Activity model (shared `Activity` type)

Only the fields the detectors and calculators read are modelled; event types
are kept as strings because the TypeScript code compares string literals
(including `app_switch`, which the shared union type cannot even produce). -/

structure Activity where
  timestamp : ℤ
  eventType : String
  url : Option String := none
  typingVelocity : Option ℚ := none
  idleDuration : Option ℚ := none
deriving DecidableEq, Repr

/-! ## Pattern detector (src/backend/src/patterns/PatternDetector.ts) -/

inductive Severity
  | low
  | medium
  | high
deriving DecidableEq, Repr

/-- A detected pattern.  The `description` string and the `metadata` bag are
presentational (never branched on downstream) and are not modelled. -/
structure DistractionPattern where
  ptype : String
  severity : Severity
deriving DecidableEq, Repr

structure PatternDetectionConfig where
  contextSwitchWindow : ℤ
  contextSwitchThreshold : ℕ
  socialMediaDomains : List String
  idleThresholdShort : ℚ
  idleThresholdExtended : ℚ
  fragmentedFocusWindow : ℤ
  fragmentedFocusThreshold : ℕ
deriving DecidableEq, Repr

/-- `DEFAULT_PATTERN_CONFIG`. -/
def defaultPatternConfig : PatternDetectionConfig :=
  { contextSwitchWindow := 5 * 60 * 1000
    contextSwitchThreshold := 8
    socialMediaDomains :=
      ["twitter.com", "x.com", "facebook.com", "instagram.com",
        "reddit.com", "tiktok.com", "youtube.com", "linkedin.com"]
    idleThresholdShort := 30
    idleThresholdExtended := 300
    fragmentedFocusWindow := 10 * 60 * 1000
    fragmentedFocusThreshold := 10 }

/-- `calculateSeverity`: ratio = actual/threshold; ≥2 high, ≥1.5 medium,
else low.  The `threshold = 0` arm mirrors JS division by zero
(`x/0 = Infinity ⇒ high` for `x > 0`, `0/0 = NaN ⇒ low`); the configured
threshold is never zero. -/
def calculateSeverity (actual threshold : ℕ) : Severity :=
  if threshold = 0 then (if actual = 0 then Severity.low else Severity.high)
  else
    if 2 ≤ (actual : ℚ) / threshold then Severity.high
    else if 3/2 ≤ (actual : ℚ) / threshold then Severity.medium
    else Severity.low

/-- `a.eventType === 'tab_switch' || a.eventType === 'app_switch'`. -/
def isSwitchEvent (a : Activity) : Bool :=
  a.eventType == "tab_switch" || a.eventType == "app_switch"

/-- `detectContextSwitching`: count switch events in the trailing window;
fire at `contextSwitchThreshold` with severity from `calculateSeverity`.
The unique-URL count feeds only the description/metadata and is not
modelled. -/
def detectContextSwitching (cfg : PatternDetectionConfig) (now : ℤ)
    (acts : List Activity) : Option DistractionPattern :=
  let recentSwitches := acts.filter fun a =>
    isSwitchEvent a && decide (now - cfg.contextSwitchWindow < a.timestamp)
  if recentSwitches.length < cfg.contextSwitchThreshold then none
  else some ⟨"context_switching",
    calculateSeverity recentSwitches.length cfg.contextSwitchThreshold⟩

/-- `socialMediaDomains.some((domain) => url.includes(domain))`. -/
def matchesSocial (cfg : PatternDetectionConfig) (u : String) : Bool :=
  cfg.socialMediaDomains.any fun d => strContains u d

/-- `detectSocialMediaSpiral`: social-media visits in the trailing window;
fires at 3 visits, severity ≥10 high / ≥5 medium / low.  The per-domain
counts and dominant domain feed only the description/metadata and are not
modelled. -/
def detectSocialMediaSpiral (cfg : PatternDetectionConfig) (now : ℤ)
    (acts : List Activity) : Option DistractionPattern :=
  let visits := acts.filter fun a =>
    match a.url with
    | some u => decide (u ≠ "") &&
        decide (now - cfg.contextSwitchWindow < a.timestamp) &&
        matchesSocial cfg u
    | none => false
  if visits.length < 3 then none
  else some ⟨"social_media_spiral",
    if 10 ≤ visits.length then Severity.high
    else if 5 ≤ visits.length then Severity.medium
    else Severity.low⟩

/-- Head of the stable descending-timestamp sort, i.e. the first element
attaining the maximal timestamp (JS `sort((a,b) => b.t - a.t)` is stable,
so ties keep their original order and the head is the earliest-indexed
maximum). -/
def mostRecentFirst (l : List Activity) : Option Activity :=
  l.foldl (fun acc a =>
    match acc with
    | none => some a
    | some m => if m.timestamp < a.timestamp then some a else acc) none

/-- `detectExtendedIdle`: look only at the most recent `idle_end` event with
a truthy `idleDuration`; fire when that duration reaches
`idleThresholdShort`, severity ≥`idleThresholdExtended` high / ≥120 medium /
low. -/
def detectExtendedIdle (cfg : PatternDetectionConfig)
    (acts : List Activity) : Option DistractionPattern :=
  let idleEnds := acts.filter fun a =>
    a.eventType == "idle_end" &&
      (match a.idleDuration with
        | some d => decide (d ≠ 0)
        | none => false)
  match mostRecentFirst idleEnds with
  | none => none
  | some a =>
    let idleDuration := a.idleDuration.getD 0
    if idleDuration < cfg.idleThresholdShort then none
    else some ⟨"extended_idle",
      if cfg.idleThresholdExtended ≤ idleDuration then Severity.high
      else if 120 ≤ idleDuration then Severity.medium
      else Severity.low⟩

/-- `detectFragmentedFocus`: in the trailing window, requires ≥5 typing
events and ≥`fragmentedFocusThreshold` tab switches, then fires when the
switch-to-typing ratio is at least 0.5; severity ≥1.5 high / ≥0.8 medium /
low. -/
def detectFragmentedFocus (cfg : PatternDetectionConfig) (now : ℤ)
    (acts : List Activity) : Option DistractionPattern :=
  let recent := acts.filter fun a =>
    decide (now - cfg.fragmentedFocusWindow < a.timestamp)
  let typingCount := (recent.filter fun a => a.eventType == "typing").length
  let tabCount := (recent.filter fun a => a.eventType == "tab_switch").length
  let ratio : ℚ := if 0 < typingCount then (tabCount : ℚ) / typingCount else 0
  if typingCount < 5 || tabCount < cfg.fragmentedFocusThreshold then none
  else if ratio < 1/2 then none
  else some ⟨"fragmented_focus",
    if 3/2 ≤ ratio then Severity.high
    else if 4/5 ≤ ratio then Severity.medium
    else Severity.low⟩

/-- `detectPatterns`: the four detectors in their fixed evaluation order,
keeping those that fire. -/
def detectPatterns (cfg : PatternDetectionConfig) (now : ℤ)
    (acts : List Activity) : List DistractionPattern :=
  [detectContextSwitching cfg now acts,
    detectSocialMediaSpiral cfg now acts,
    detectExtendedIdle cfg acts,
    detectFragmentedFocus cfg now acts].filterMap id

/-- An activity whose URL (when present) matches no configured social-media
domain. -/
def noSocialUrl (cfg : PatternDetectionConfig) (a : Activity) : Bool :=
  match a.url with
  | some u => !matchesSocial cfg u
  | none => true

/-- Core detector evaluation: an activity set consisting solely of in-window
`tab_switch` events whose URLs match no social-media domain produces, at
exactly 8 events, the single `context_switching` pattern with severity `low`
and, at exactly 16 events, severity `high`. -/
theorem detectPatterns_all_tab_switches (now : ℤ) (acts : List Activity)
    (hall : ∀ a ∈ acts, a.eventType = "tab_switch" ∧
      now - defaultPatternConfig.contextSwitchWindow < a.timestamp ∧
      noSocialUrl defaultPatternConfig a = true) :
    (acts.length = 8 → detectPatterns defaultPatternConfig now acts =
      [⟨"context_switching", Severity.low⟩]) ∧
    (acts.length = 16 → detectPatterns defaultPatternConfig now acts =
      [⟨"context_switching", Severity.high⟩]) := by
  have hctx : (acts.filter fun a =>
      isSwitchEvent a &&
        decide (now - defaultPatternConfig.contextSwitchWindow < a.timestamp))
      = acts := by
    apply List.filter_eq_self.mpr
    intro a ha
    obtain ⟨he, ht, _⟩ := hall a ha
    simp [isSwitchEvent, he, ht]
  have hsoc : detectSocialMediaSpiral defaultPatternConfig now acts = none := by
    unfold detectSocialMediaSpiral
    have hv : (acts.filter fun a =>
        match a.url with
        | some u => decide (u ≠ "") &&
            decide (now - defaultPatternConfig.contextSwitchWindow < a.timestamp) &&
            matchesSocial defaultPatternConfig u
        | none => false) = [] := by
      apply List.filter_eq_nil_iff.mpr
      intro a ha
      obtain ⟨_, _, hu⟩ := hall a ha
      unfold noSocialUrl at hu
      match hcase : a.url with
      | none => simp
      | some u =>
        rw [hcase] at hu
        simp at hu
        simp [hu]
    rw [hv]
    simp
  have hidle : detectExtendedIdle defaultPatternConfig acts = none := by
    unfold detectExtendedIdle
    have hi : (acts.filter fun a =>
        a.eventType == "idle_end" &&
          (match a.idleDuration with
            | some d => decide (d ≠ 0)
            | none => false)) = [] := by
      apply List.filter_eq_nil_iff.mpr
      intro a ha
      obtain ⟨he, _, _⟩ := hall a ha
      simp [he]
    rw [hi]
    simp [mostRecentFirst]
  have hfrag : detectFragmentedFocus defaultPatternConfig now acts = none := by
    simp only [detectFragmentedFocus]
    have htyp : ((acts.filter fun a =>
        decide (now - defaultPatternConfig.fragmentedFocusWindow < a.timestamp)).filter
          fun a => a.eventType == "typing") = [] := by
      apply List.filter_eq_nil_iff.mpr
      intro a ha
      have ha2 := List.mem_of_mem_filter ha
      obtain ⟨he, _, _⟩ := hall a ha2
      simp [he]
    rw [htyp]
    simp
  constructor
  · intro h8
    have hcs : detectContextSwitching defaultPatternConfig now acts =
        some ⟨"context_switching", Severity.low⟩ := by
      simp only [detectContextSwitching]
      rw [hctx, h8]
      norm_num [calculateSeverity, defaultPatternConfig]
    simp [detectPatterns, hcs, hsoc, hidle, hfrag]
  · intro h16
    have hcs : detectContextSwitching defaultPatternConfig now acts =
        some ⟨"context_switching", Severity.high⟩ := by
      simp only [detectContextSwitching]
      rw [hctx, h16]
      norm_num [calculateSeverity, defaultPatternConfig]
    simp [detectPatterns, hcs, hsoc, hidle, hfrag]

/-- C8: under the default configuration, an activity set consisting solely
of in-window `tab_switch` events whose URLs match no social-media domain
produces, at exactly 8 events, the single pattern `context_switching` with
severity `low` (ratio 8/8 = 1 relative to the default threshold 8), and at
exactly 16 events the single pattern `context_switching` with severity
`high` (ratio 2). -/
theorem detect_context_switching_thresholds (now : ℤ) (acts : List Activity)
    (hall : ∀ a ∈ acts, a.eventType = "tab_switch" ∧
      now - defaultPatternConfig.contextSwitchWindow < a.timestamp ∧
      noSocialUrl defaultPatternConfig a = true) :
    (acts.length = 8 → detectPatterns defaultPatternConfig now acts =
      [⟨"context_switching", Severity.low⟩]) ∧
    (acts.length = 16 → detectPatterns defaultPatternConfig now acts =
      [⟨"context_switching", Severity.high⟩]) :=
  detectPatterns_all_tab_switches now acts hall

/-- A run of `n` in-window tab switches on a non-social documentation page. -/
def ctxActs (n : ℕ) : List Activity :=
  (List.range n).map fun i =>
    ⟨(i : ℤ), "tab_switch", some "https://docs.example.com", none, none⟩

/-- Concrete instantiation of `detect_context_switching_thresholds` at 8 and
16 tab switches observed at `now = 1`. -/
theorem detect_context_switching_thresholds_witness :
    detectPatterns defaultPatternConfig 1 (ctxActs 8) =
      [⟨"context_switching", Severity.low⟩] ∧
    detectPatterns defaultPatternConfig 1 (ctxActs 16) =
      [⟨"context_switching", Severity.high⟩] :=
  ⟨(detect_context_switching_thresholds 1 (ctxActs 8) (by decide)).1 (by decide),
    (detect_context_switching_thresholds 1 (ctxActs 16) (by decide)).2 (by decide)⟩

/-! ## Focus score calculator (src/unnamed/part_008, `FocusScoreCalculator`) -/

structure FocusWeights where
  typingConsistency : ℚ
  lowContextSwitching : ℚ
  minimalIdle : ℚ
  siteFocus : ℚ
deriving DecidableEq, Repr

structure FocusScoreConfig where
  weights : FocusWeights
  productiveDomains : List String
  distractingDomains : List String
deriving DecidableEq, Repr

/-- `DEFAULT_FOCUS_SCORE_CONFIG`. -/
def defaultFocusScoreConfig : FocusScoreConfig :=
  { weights := ⟨0.4, 0.3, 0.2, 0.1⟩
    productiveDomains :=
      ["github.com", "stackoverflow.com", "docs.google.com", "notion.so",
        "figma.com", "vscode.dev", "replit.com", "codesandbox.io",
        "vercel.com", "netlify.com"]
    distractingDomains :=
      ["twitter.com", "x.com", "facebook.com", "instagram.com", "reddit.com",
        "tiktok.com", "youtube.com", "netflix.com", "twitch.tv"] }

structure FocusScoreComponents where
  typingConsistency : ℚ
  lowContextSwitching : ℚ
  minimalIdle : ℚ
  siteFocus : ℚ
  overall : ℚ
deriving DecidableEq, Repr

/-- The typing events that count: `eventType === 'typing' && a.typingVelocity`
(JS truthiness, so a velocity of 0 is excluded), projected to the velocity. -/
def typingVelocities (acts : List Activity) : List ℚ :=
  (acts.filter fun a =>
    a.eventType == "typing" &&
      (match a.typingVelocity with
        | some v => decide (v ≠ 0)
        | none => false)).filterMap Activity.typingVelocity

/-- Mean of the velocity list. -/
def velocityMean (vs : List ℚ) : ℚ :=
  vs.sum / vs.length

/-- Population variance of the velocity list. -/
def velocityVariance (vs : List ℚ) : ℚ :=
  ((vs.map fun v => (v - velocityMean vs) ^ 2).sum) / vs.length

/-- Coefficient of variation `stdDev / avgVelocity` (1 when the mean is not
positive), with the standard deviation given by `ratSqrt`. -/
def velocityCV (vs : List ℚ) : ℚ :=
  if 0 < velocityMean vs then ratSqrt (velocityVariance vs) / velocityMean vs
  else 1

/-- `calculateTypingConsistency`: neutral 50 under 3 velocity events,
otherwise `Math.round(Math.max(0, Math.min(100, 100 - cv * 200)))`. -/
def calculateTypingConsistency (acts : List Activity) : ℚ :=
  if (typingVelocities acts).length < 3 then 50
  else roundJs (max 0 (min 100 (100 - velocityCV (typingVelocities acts) * 200)))

/-- The piecewise score of `calculateLowContextSwitching` as a function of
switches per hour. -/
def lowSwitchScore (switchesPerHour : ℚ) : ℚ :=
  if switchesPerHour ≤ 5 then 100
  else if switchesPerHour ≤ 15 then roundJs (100 - (switchesPerHour - 5) * 3)
  else if switchesPerHour ≤ 30 then roundJs (70 - (switchesPerHour - 15) * 2)
  else max 0 (roundJs (40 - (switchesPerHour - 30)))

/-- `calculateLowContextSwitching`: neutral 50 for a zero duration, else the
piecewise score at `switchCount / sessionHours`. -/
def calculateLowContextSwitching (acts : List Activity)
    (sessionDurationMs : ℚ) : ℚ :=
  if sessionDurationMs = 0 then 50
  else lowSwitchScore
    (((acts.filter isSwitchEvent).length : ℚ) /
      (sessionDurationMs / (1000 * 60 * 60)))

/-- The piecewise score of `calculateMinimalIdle` as a function of the idle
percentage. -/
def idleScore (idlePercentage : ℚ) : ℚ :=
  if idlePercentage ≤ 10 then 100
  else if idlePercentage ≤ 20 then roundJs (100 - (idlePercentage - 10))
  else if idlePercentage ≤ 40 then roundJs (80 - (idlePercentage - 20) * 1.5)
  else max 0 (roundJs (50 - (idlePercentage - 40) * 1.25))

/-- Total idle seconds: sum of `idleDuration` over `idle_end` events with a
truthy duration. -/
def totalIdleSeconds (acts : List Activity) : ℚ :=
  ((acts.filter fun a =>
    a.eventType == "idle_end" &&
      (match a.idleDuration with
        | some d => decide (d ≠ 0)
        | none => false)).filterMap Activity.idleDuration).sum

/-- `calculateMinimalIdle`: neutral 50 for a zero session length, else the
piecewise score at `totalIdleSeconds / sessionSeconds × 100`. -/
def calculateMinimalIdle (acts : List Activity) (sessionDurationMs : ℚ) : ℚ :=
  if sessionDurationMs / 1000 = 0 then 50
  else idleScore (totalIdleSeconds acts / (sessionDurationMs / 1000) * 100)

/-- URL classified against the productive-domain list. -/
def isProductiveUrl (cfg : FocusScoreConfig) (u : String) : Bool :=
  cfg.productiveDomains.any fun d => strContains u d

/-- URL classified against the distracting-domain list. -/
def isDistractingUrl (cfg : FocusScoreConfig) (u : String) : Bool :=
  cfg.distractingDomains.any fun d => strContains u d

/-- The balance scoring of `calculateSiteFocus` from the productive /
distracting / total counts. -/
def siteFocusCore (productiveCount distractingCount total : ℕ) : ℚ :=
  if 1/2 < (distractingCount : ℚ) / total then
    roundJs (30 * (1 - (distractingCount : ℚ) / total))
  else if 7/10 < (productiveCount : ℚ) / total then 100
  else if 2/5 < (productiveCount : ℚ) / total then
    roundJs (70 + ((productiveCount : ℚ) / total) * 30)
  else roundJs (50 + ((productiveCount : ℚ) / total) * 40)

/-- The activities with a truthy URL. -/
def urlActivities (acts : List Activity) : List Activity :=
  acts.filter fun a =>
    match a.url with
    | some u => decide (u ≠ "")
    | none => false

/-- `calculateSiteFocus`: neutral 50 with no URL-bearing activity, else the
balance score of productive vs distracting counts (an activity counts as
distracting only when it is not productive, mirroring the `else if`). -/
def calculateSiteFocus (cfg : FocusScoreConfig) (acts : List Activity) : ℚ :=
  if (urlActivities acts).length = 0 then 50
  else siteFocusCore
    ((urlActivities acts).filter fun a =>
      isProductiveUrl cfg (a.url.getD "")).length
    ((urlActivities acts).filter fun a =>
      !isProductiveUrl cfg (a.url.getD "") &&
        isDistractingUrl cfg (a.url.getD "")).length
    (urlActivities acts).length

/-- `calculate`: the four components and the weighted overall, rounded to one
decimal place (`Math.round(overall * 10) / 10`). -/
def calculate (cfg : FocusScoreConfig) (acts : List Activity)
    (sessionDurationMs : ℚ) : FocusScoreComponents :=
  { typingConsistency := calculateTypingConsistency acts
    lowContextSwitching := calculateLowContextSwitching acts sessionDurationMs
    minimalIdle := calculateMinimalIdle acts sessionDurationMs
    siteFocus := calculateSiteFocus cfg acts
    overall := roundJs
      ((calculateTypingConsistency acts * cfg.weights.typingConsistency +
        calculateLowContextSwitching acts sessionDurationMs *
          cfg.weights.lowContextSwitching +
        calculateMinimalIdle acts sessionDurationMs * cfg.weights.minimalIdle +
        calculateSiteFocus cfg acts * cfg.weights.siteFocus) * 10) / 10 }

theorem roundJs_nonneg {x : ℚ} (h : 0 ≤ x) : 0 ≤ roundJs x := by
  have := le_roundJs x 0 (by exact_mod_cast h)
  simpa using this

theorem roundJs_le_hundred {x : ℚ} (h : x ≤ 100) : roundJs x ≤ 100 := by
  have := roundJs_le x 100 (by exact_mod_cast h)
  simpa using this

theorem calculateTypingConsistency_bounds (acts : List Activity) :
    0 ≤ calculateTypingConsistency acts ∧
      calculateTypingConsistency acts ≤ 100 := by
  unfold calculateTypingConsistency
  split_ifs with h
  · norm_num
  · exact ⟨roundJs_nonneg (le_max_left 0 _),
      roundJs_le_hundred (max_le (by norm_num) (min_le_left 100 _))⟩

theorem lowSwitchScore_bounds (x : ℚ) :
    0 ≤ lowSwitchScore x ∧ lowSwitchScore x ≤ 100 := by
  unfold lowSwitchScore
  split_ifs with h1 h2 h3
  · norm_num
  · push_neg at h1
    exact ⟨roundJs_nonneg (by linarith), roundJs_le_hundred (by linarith)⟩
  · push_neg at h1 h2
    exact ⟨roundJs_nonneg (by linarith), roundJs_le_hundred (by linarith)⟩
  · push_neg at h1 h2 h3
    refine ⟨le_max_left 0 _, max_le (by norm_num) ?_⟩
    exact roundJs_le_hundred (by linarith)

theorem calculateLowContextSwitching_bounds (acts : List Activity) (dur : ℚ) :
    0 ≤ calculateLowContextSwitching acts dur ∧
      calculateLowContextSwitching acts dur ≤ 100 := by
  unfold calculateLowContextSwitching
  split_ifs with h
  · norm_num
  · exact lowSwitchScore_bounds _

theorem idleScore_bounds (x : ℚ) : 0 ≤ idleScore x ∧ idleScore x ≤ 100 := by
  unfold idleScore
  split_ifs with h1 h2 h3
  · norm_num
  · push_neg at h1
    exact ⟨roundJs_nonneg (by linarith), roundJs_le_hundred (by linarith)⟩
  · push_neg at h1 h2
    exact ⟨roundJs_nonneg (by linarith), roundJs_le_hundred (by linarith)⟩
  · push_neg at h1 h2 h3
    refine ⟨le_max_left 0 _, max_le (by norm_num) ?_⟩
    exact roundJs_le_hundred (by linarith)

theorem calculateMinimalIdle_bounds (acts : List Activity) (dur : ℚ) :
    0 ≤ calculateMinimalIdle acts dur ∧ calculateMinimalIdle acts dur ≤ 100 := by
  unfold calculateMinimalIdle
  split_ifs with h
  · norm_num
  · exact idleScore_bounds _

theorem siteFocusCore_bounds (p d total : ℕ) (hp : p ≤ total) (hd : d ≤ total)
    (htot : 0 < total) : 0 ≤ siteFocusCore p d total ∧
      siteFocusCore p d total ≤ 100 := by
  have htotq : (0 : ℚ) < total := by exact_mod_cast htot
  have hpr0 : 0 ≤ (p : ℚ) / total := by positivity
  have hpr1 : (p : ℚ) / total ≤ 1 := by
    rw [div_le_one htotq]
    exact_mod_cast hp
  have hdr0 : 0 ≤ (d : ℚ) / total := by positivity
  have hdr1 : (d : ℚ) / total ≤ 1 := by
    rw [div_le_one htotq]
    exact_mod_cast hd
  unfold siteFocusCore
  split_ifs with h1 h2 h3
  · exact ⟨roundJs_nonneg (by linarith), roundJs_le_hundred (by linarith)⟩
  · norm_num
  · exact ⟨roundJs_nonneg (by linarith), roundJs_le_hundred (by linarith)⟩
  · exact ⟨roundJs_nonneg (by linarith), roundJs_le_hundred (by linarith)⟩

theorem calculateSiteFocus_bounds (cfg : FocusScoreConfig)
    (acts : List Activity) :
    0 ≤ calculateSiteFocus cfg acts ∧ calculateSiteFocus cfg acts ≤ 100 := by
  unfold calculateSiteFocus
  split_ifs with h
  · norm_num
  · exact siteFocusCore_bounds _ _ _
      (List.length_filter_le _ _) (List.length_filter_le _ _)
      (Nat.pos_of_ne_zero h)

/-- C9: for every activity list and session duration, under the default
configuration every component of `calculate` lies in `[0, 100]`, and
`overall` is exactly the weighted sum of the four components (weights
0.4/0.3/0.2/0.1) times ten, rounded, divided by ten — hence also in
`[0, 100]`. -/
theorem focus_components_bounded (acts : List Activity) (dur : ℚ) :
    (0 ≤ (calculate defaultFocusScoreConfig acts dur).typingConsistency ∧
      (calculate defaultFocusScoreConfig acts dur).typingConsistency ≤ 100) ∧
    (0 ≤ (calculate defaultFocusScoreConfig acts dur).lowContextSwitching ∧
      (calculate defaultFocusScoreConfig acts dur).lowContextSwitching ≤ 100) ∧
    (0 ≤ (calculate defaultFocusScoreConfig acts dur).minimalIdle ∧
      (calculate defaultFocusScoreConfig acts dur).minimalIdle ≤ 100) ∧
    (0 ≤ (calculate defaultFocusScoreConfig acts dur).siteFocus ∧
      (calculate defaultFocusScoreConfig acts dur).siteFocus ≤ 100) ∧
    (calculate defaultFocusScoreConfig acts dur).overall =
      roundJs (((calculate defaultFocusScoreConfig acts dur).typingConsistency
          * (0.4 : ℚ) +
        (calculate defaultFocusScoreConfig acts dur).lowContextSwitching
          * (0.3 : ℚ) +
        (calculate defaultFocusScoreConfig acts dur).minimalIdle * (0.2 : ℚ) +
        (calculate defaultFocusScoreConfig acts dur).siteFocus * (0.1 : ℚ))
          * 10) / 10 ∧
    (0 ≤ (calculate defaultFocusScoreConfig acts dur).overall ∧
      (calculate defaultFocusScoreConfig acts dur).overall ≤ 100) := by
  obtain ⟨ht0, ht1⟩ := calculateTypingConsistency_bounds acts
  obtain ⟨hl0, hl1⟩ := calculateLowContextSwitching_bounds acts dur
  obtain ⟨hm0, hm1⟩ := calculateMinimalIdle_bounds acts dur
  obtain ⟨hs0, hs1⟩ := calculateSiteFocus_bounds defaultFocusScoreConfig acts
  have hw1 : defaultFocusScoreConfig.weights.typingConsistency = 0.4 := rfl
  have hw2 : defaultFocusScoreConfig.weights.lowContextSwitching = 0.3 := rfl
  have hw3 : defaultFocusScoreConfig.weights.minimalIdle = 0.2 := rfl
  have hw4 : defaultFocusScoreConfig.weights.siteFocus = 0.1 := rfl
  refine ⟨⟨ht0, ht1⟩, ⟨hl0, hl1⟩, ⟨hm0, hm1⟩, ⟨hs0, hs1⟩, ?_, ?_, ?_⟩
  · simp only [calculate, hw1, hw2, hw3, hw4]
  · simp only [calculate, hw1, hw2, hw3, hw4]
    apply div_nonneg _ (by norm_num : (0:ℚ) ≤ 10)
    apply roundJs_nonneg
    nlinarith
  · simp only [calculate, hw1, hw2, hw3, hw4]
    rw [div_le_iff₀ (by norm_num : (0:ℚ) < 10)]
    have hle : (calculateTypingConsistency acts * (0.4 : ℚ) +
        calculateLowContextSwitching acts dur * (0.3 : ℚ) +
        calculateMinimalIdle acts dur * (0.2 : ℚ) +
        calculateSiteFocus defaultFocusScoreConfig acts * (0.1 : ℚ)) * 10 ≤
        ((1000 : ℤ) : ℚ) := by
      push_cast
      nlinarith
    have h1000 := roundJs_le _ 1000 hle
    push_cast at h1000
    linarith

/-! ## Claim C7: typing-consistency scoring -/

/-- Four typing events with velocities 4, 6, 4, 6: mean 5, variance 1,
coefficient of variation exactly 0.2. -/
def actsCvFifth : List Activity :=
  [⟨0, "typing", none, some 4, none⟩, ⟨1, "typing", none, some 6, none⟩,
    ⟨2, "typing", none, some 4, none⟩, ⟨3, "typing", none, some 6, none⟩]

/-- Four typing events with velocities 2, 4, 2, 4: mean 3, variance 1,
coefficient of variation exactly 1/3. -/
def actsCvThird : List Activity :=
  [⟨0, "typing", none, some 2, none⟩, ⟨1, "typing", none, some 4, none⟩,
    ⟨2, "typing", none, some 2, none⟩, ⟨3, "typing", none, some 4, none⟩]

/-- Three typing events with equal velocity 5: coefficient of variation 0. -/
def actsCvZero : List Activity :=
  [⟨0, "typing", none, some 5, none⟩, ⟨1, "typing", none, some 5, none⟩,
    ⟨2, "typing", none, some 5, none⟩]

theorem natSqrtLinear_one : natSqrtLinear 1 = 1 := by decide

theorem ratSqrt_one : ratSqrt 1 = 1 := by
  unfold ratSqrt
  norm_num [natSqrtLinear_one]

theorem natSqrtLinear_zero : natSqrtLinear 0 = 0 := by decide

theorem ratSqrt_zero : ratSqrt 0 = 0 := by
  unfold ratSqrt
  norm_num [natSqrtLinear_zero]

theorem typingVelocities_actsCvFifth :
    typingVelocities actsCvFifth = [4, 6, 4, 6] := by
  simp [typingVelocities, actsCvFifth]

theorem typingVelocities_actsCvThird :
    typingVelocities actsCvThird = [2, 4, 2, 4] := by
  simp [typingVelocities, actsCvThird]

theorem velocityCV_actsCvFifth :
    velocityCV (typingVelocities actsCvFifth) = 1/5 := by
  rw [typingVelocities_actsCvFifth]
  have hm : velocityMean [(4 : ℚ), 6, 4, 6] = 5 := by
    norm_num [velocityMean]
  have hv : velocityVariance [(4 : ℚ), 6, 4, 6] = 1 := by
    norm_num [velocityVariance, hm]
  simp [velocityCV, hm, hv, ratSqrt_one]

theorem velocityCV_actsCvThird :
    velocityCV (typingVelocities actsCvThird) = 1/3 := by
  rw [typingVelocities_actsCvThird]
  have hm : velocityMean [(2 : ℚ), 4, 2, 4] = 3 := by
    norm_num [velocityMean]
  have hv : velocityVariance [(2 : ℚ), 4, 2, 4] = 1 := by
    norm_num [velocityVariance, hm]
  simp [velocityCV, hm, hv, ratSqrt_one]

/-- C7 counterexample: the velocities 4, 6, 4, 6 have coefficient of
variation exactly 0.2, yet the component is 60, not the claimed
"near-perfect 100"; and for velocities 2, 4, 2, 4 (cv = 1/3) the component
is the rounded 33 while `clamp(0,100, 100 − cv×200)` is 100/3, so the
component does not equal the claimed unrounded clamp either. -/
theorem typingConsistency_claim_refuted :
    velocityCV (typingVelocities actsCvFifth) = 1/5 ∧
    calculateTypingConsistency actsCvFifth = 60 ∧
    calculateTypingConsistency actsCvFifth ≠ 100 ∧
    velocityCV (typingVelocities actsCvThird) = 1/3 ∧
    calculateTypingConsistency actsCvThird = 33 ∧
    max 0 (min 100 (100 - velocityCV (typingVelocities actsCvThird) * 200))
      = 100/3 ∧
    calculateTypingConsistency actsCvThird ≠
      max 0 (min 100 (100 - velocityCV (typingVelocities actsCvThird) * 200)) := by
  have h5 : calculateTypingConsistency actsCvFifth = 60 := by
    unfold calculateTypingConsistency
    rw [velocityCV_actsCvFifth, typingVelocities_actsCvFifth]
    norm_num [roundJs]
  have h3 : calculateTypingConsistency actsCvThird = 33 := by
    unfold calculateTypingConsistency
    rw [velocityCV_actsCvThird, typingVelocities_actsCvThird]
    norm_num [roundJs]
  have hclamp : max 0 (min 100 (100 -
      velocityCV (typingVelocities actsCvThird) * 200)) = 100/3 := by
    rw [velocityCV_actsCvThird]
    norm_num
  refine ⟨velocityCV_actsCvFifth, h5, by rw [h5]; norm_num,
    velocityCV_actsCvThird, h3, hclamp, by rw [h3, hclamp]; norm_num⟩

/-- C7 (amended): with at least 3 velocity-bearing typing events the
component equals the JS-rounded clamp `round(clamp(0,100, 100 − cv×200))`
where `cv` is the code's coefficient of variation (stdDev/mean, or 1 for a
non-positive mean); a cv of 0 scores 100, a cv of 0.5 or above scores 0; and
with fewer than 3 such events the component is the neutral 50. -/
theorem typingConsistency_formula (acts : List Activity)
    (h3 : 3 ≤ (typingVelocities acts).length) :
    calculateTypingConsistency acts =
      roundJs (max 0 (min 100
        (100 - velocityCV (typingVelocities acts) * 200))) ∧
    (1/2 ≤ velocityCV (typingVelocities acts) →
      calculateTypingConsistency acts = 0) ∧
    (velocityCV (typingVelocities acts) = 0 →
      calculateTypingConsistency acts = 100) ∧
    (∀ acts2 : List Activity, (typingVelocities acts2).length < 3 →
      calculateTypingConsistency acts2 = 50) := by
  have hni : ¬ (typingVelocities acts).length < 3 := by omega
  refine ⟨?_, ?_, ?_, ?_⟩
  · simp [calculateTypingConsistency, hni]
  · intro hcv
    simp only [calculateTypingConsistency, if_neg hni]
    have hmin : min 100 (100 - velocityCV (typingVelocities acts) * 200) =
        100 - velocityCV (typingVelocities acts) * 200 :=
      min_eq_right (by linarith)
    have hmax : max 0 (100 - velocityCV (typingVelocities acts) * 200) = 0 :=
      max_eq_left (by linarith)
    rw [hmin, hmax]
    norm_num [roundJs]
  · intro hcv
    simp only [calculateTypingConsistency, if_neg hni, hcv]
    norm_num [roundJs]
  · intro acts2 hlen
    simp [calculateTypingConsistency, hlen]

/-- Concrete instantiation of `typingConsistency_formula`: three equal
velocities (cv = 0) score 100; an empty activity list scores the neutral
50. -/
theorem typingConsistency_formula_witness :
    calculateTypingConsistency actsCvZero = 100 ∧
    calculateTypingConsistency [] = 50 := by
  have hv : typingVelocities actsCvZero = [5, 5, 5] := by
    simp [typingVelocities, actsCvZero]
  have hcv : velocityCV (typingVelocities actsCvZero) = 0 := by
    rw [hv]
    have hm : velocityMean [(5 : ℚ), 5, 5] = 5 := by
      norm_num [velocityMean]
    have hvar : velocityVariance [(5 : ℚ), 5, 5] = 0 := by
      norm_num [velocityVariance, hm]
    simp [velocityCV, hm, hvar, ratSqrt_zero]
  exact ⟨(typingConsistency_formula actsCvZero (by rw [hv]; norm_num)).2.2.1 hcv,
    (typingConsistency_formula actsCvZero (by rw [hv]; norm_num)).2.2.2 []
      (by simp [typingVelocities])⟩

/-! ## Intervention orchestrator
(src/backend/src/websocket/socketHandler.ts, `analyzePatternAndIntervene`,
with the per-session throttle operations of
src/backend/src/ai/rateLimiter.ts) -/

/-- `GroqRateLimiter.canSendIntervention(sessionId, minIntervalMs)` over the
per-session map: true for an unknown session, false while less than
`minIntervalMs` has elapsed since the recorded intervention.  The `last = 0`
arm mirrors JS `if (!lastIntervention)` treating a 0 timestamp as absent. -/
def canSendIntervention (m : List (String × ℤ)) (sessionId : String)
    (now minIntervalMs : ℤ) : Bool :=
  match m.lookup sessionId with
  | none => true
  | some last =>
    if last = 0 then true
    else if now - last < minIntervalMs then false
    else true

/-- `GroqRateLimiter.recordIntervention(sessionId)`: stamp the current time
for the session (`Map.set` overwrite semantics). -/
def recordIntervention (m : List (String × ℤ)) (sessionId : String)
    (now : ℤ) : List (String × ℤ) :=
  (sessionId, now) :: m.filter fun p => !(p.1 == sessionId)

/-- `WebSocketHandler.analyzePatternAndIntervene`, one activity event for a
session: take the last 50 of the session's activities, run the real-time
detectors, and if any pattern fires generate and deliver an intervention for
the first one (the inference call is modelled as always succeeding and the
payload is reduced to the triggering pattern type).  The per-session
throttle map `m` is carried through to make visible that the method never
consults `canSendIntervention` nor calls `recordIntervention`: it is
returned unchanged on every path. -/
def analyzePatternAndIntervene (m : List (String × ℤ)) (now : ℤ)
    (allActivities : List Activity) : Option String × List (String × ℤ) :=
  let recentActivities := lastN 50 allActivities
  if recentActivities.length = 0 then (none, m)
  else
    match detectPatterns defaultPatternConfig now recentActivities with
    | [] => (none, m)
    | p :: _ => (some p.ptype, m)

/-- C1 (refuting evaluation): with a recent window of 8 tab switches, the
orchestrator delivers an intervention at `now = 1` and again at
`now = 1001` — 1000 ms apart, far below the 600000 ms minimum interval —
leaving the throttle map untouched, while `canSendIntervention` (had
`recordIntervention` been called at the first delivery, as the claim states)
would have returned `false` for the second event. -/
theorem orchestrator_skips_intervention_throttle :
    (analyzePatternAndIntervene [] 1 (ctxActs 8)).1 =
      some "context_switching" ∧
    (analyzePatternAndIntervene [] 1 (ctxActs 8)).2 = [] ∧
    (analyzePatternAndIntervene
      ((analyzePatternAndIntervene [] 1 (ctxActs 8)).2) 1001 (ctxActs 8)).1 =
        some "context_switching" ∧
    ((1001 : ℤ) - 1 < 600000) ∧
    canSendIntervention (recordIntervention [] "session-1" 1) "session-1"
      1001 600000 = false := by
  have hlast : lastN 50 (ctxActs 8) = ctxActs 8 := by decide
  have hne : ¬ ((ctxActs 8).length = 0) := by decide
  have hp1 : detectPatterns defaultPatternConfig 1 (ctxActs 8) =
      [⟨"context_switching", Severity.low⟩] :=
    (detectPatterns_all_tab_switches 1 (ctxActs 8) (by decide)).1 (by decide)
  have hp2 : detectPatterns defaultPatternConfig 1001 (ctxActs 8) =
      [⟨"context_switching", Severity.low⟩] :=
    (detectPatterns_all_tab_switches 1001 (ctxActs 8) (by decide)).1 (by decide)
  have hstate : ∀ (m : List (String × ℤ)) (now : ℤ) (acts : List Activity),
      (analyzePatternAndIntervene m now acts).2 = m := by
    intro m now acts
    simp only [analyzePatternAndIntervene]
    split
    · rfl
    · split <;> rfl
  refine ⟨?_, hstate [] 1 (ctxActs 8), ?_, by decide, by decide⟩
  · simp only [analyzePatternAndIntervene]
    rw [hlast, if_neg hne, hp1]
  · rw [hstate [] 1 (ctxActs 8)]
    simp only [analyzePatternAndIntervene]
    rw [hlast, if_neg hne, hp2]
